import Mathlib

/-!
Verification of the symbol-cache fetch orchestration in
`src/actors/symcaches.rs` of the symbolicator repository.

The domain code (the `CacheItemRequest` implementation for
`FetchSymCacheInternal`, the `SymCacheFile` item, `SymCacheActor::fetch`
and `write_symcache`) is embedded shallowly below: every fallible external
effect (object download, file creation, buffered flush, fsync, thread-pool
cancellation, the timeout race) is made an explicit input, and each Rust
function becomes a total Lean function over those inputs.

The external `symbolic` crate (the symcache byte format, `SymCache::parse`,
`SymCacheWriter::write_object`) and the generic memoizing engine (`Cacher`,
which lives outside the embedded source file) are modelled from the
specification; those definitions carry doc comments saying so.
-/

/-- Tri-state cache result classification, from `crate::cache::CacheStatus`:
`Positive` (valid artifact), `Negative` (source object unresolved),
`Malformed` (source object resolved but unconvertible). -/
inductive CacheStatus where
  | Positive
  | Negative
  | Malformed
  deriving DecidableEq, Repr

/-- Target architecture tag, from `symbolic::common::Arch`. Only the
distinction between `Unknown` (the `Default`) and concrete architectures
matters to the embedded code, so a small representative set is kept. -/
inductive Arch where
  | unknown
  | x86
  | amd64
  | arm64
  deriving DecidableEq, Repr

instance : Inhabited Arch := ⟨Arch.unknown⟩

/-- Byte payloads (`ByteView`, `&[u8]`) are lists of bytes. -/
abbrev Bytes := List Nat

/-- Access-partition tag (`crate::types::Scope`), opaque to this file. -/
abbrev Scope := String

/-- Object identifier (`crate::types::ObjectId`), opaque to this file. -/
abbrev ObjectId := String

/-- Object type tag (`crate::types::ObjectType`), opaque to this file. -/
abbrev ObjectType := String

/-- One candidate source (`crate::sources::SourceConfig`), opaque here. -/
abbrev SourceConfig := String

/-- Cache key (`crate::cache::CacheKey`): deterministic identifier of
object identity, scope and derived-format version; opaque to this file,
which only compares keys for equality. -/
abbrev CacheKey := String

/-- Path inside the cache (`crate::actors::common::cache::CachePath`);
the embedded `load` ignores it, so it stays opaque. -/
abbrev CachePath := String

/-- Feature flags of the source object (`crate::types::ObjectFeatures`).
The embedded code only reads them from the object meta and defaults them
in the negative path, so they are an opaque record of flags. -/
structure ObjectFeatures where
  has_debug_info : Bool := false
  has_unwind_info : Bool := false
  has_symbols : Bool := false
  deriving DecidableEq, Repr

instance : Inhabited ObjectFeatures := ⟨{}⟩

/-- Modelled from the spec: the derived symcache format is an opaque byte
blob with a validity predicate, an embedded format-version header and an
architecture tag. A successfully parsed view exposes exactly what the
embedded code consumes: the embedded version (for `is_latest`) and the
architecture (for `arch`). -/
structure SymCacheView where
  version : Nat
  arch : Arch
  deriving DecidableEq, Repr

/-- Modelled from the spec: the latest supported derived-format revision.
The concrete number is irrelevant to every property proved below; only
equality with the embedded version matters. -/
def symcacheLatestVersion : Nat := 4

/-- Modelled from the spec: decoding of the architecture byte of the
header; unassigned codes decode to `unknown`. -/
def decodeArch (code : Nat) : Arch :=
  match code with
  | 1 => Arch.x86
  | 2 => Arch.amd64
  | 3 => Arch.arm64
  | _ => Arch.unknown

/-- Modelled from the spec: `SymCache::parse` from the external `symbolic`
crate. The blob is valid when it starts with the magic byte and carries a
version and architecture byte; anything else is a parse error. -/
def parseSymCache (data : Bytes) : Except String SymCacheView :=
  match data with
  | magic :: version :: archCode :: _ =>
      if magic = 77 then Except.ok { version := version, arch := decodeArch archCode }
      else Except.error "invalid magic"
  | _ => Except.error "header too small"

/-- Modelled from the spec: `SymCache::is_latest`, true when the embedded
format version is the latest supported revision. -/
def SymCacheView.is_latest (c : SymCacheView) : Bool :=
  c.version = symcacheLatestVersion

/-- The shared result handle (`SymCacheFile` in the source): object
identity, scope, byte payload, feature flags, cache status and the
architecture re-derived from the bytes. -/
structure SymCacheFile where
  object_type : ObjectType
  identifier : ObjectId
  scope : Scope
  data : Bytes
  features : ObjectFeatures
  status : CacheStatus
  arch : Arch
  deriving DecidableEq, Repr

/-- `SymCacheFile::parse`: dispatch on the cache status — `Negative`
yields `Ok(None)`, `Malformed` yields an error, `Positive` parses the
stored bytes (contextualising a parse failure). -/
def SymCacheFile.parse (f : SymCacheFile) : Except String (Option SymCacheView) :=
  match f.status with
  | CacheStatus.Negative => Except.ok none
  | CacheStatus.Malformed => Except.error "Failed to parse object"
  | CacheStatus.Positive =>
      match parseSymCache f.data with
      | Except.ok c => Except.ok (some c)
      | Except.error _ => Except.error "Failed to parse symcache"

/-- `SymCacheFile::arch`. -/
def SymCacheFile.arch_accessor (f : SymCacheFile) : Arch := f.arch

/-- `SymCacheFile::features`. -/
def SymCacheFile.features_accessor (f : SymCacheFile) : ObjectFeatures := f.features

/-- The resolved-object metadata handle (`Arc<ObjectFileMeta>`): the
embedded code reads its cache key and its feature flags. -/
structure ObjectFileMeta where
  cache_key : CacheKey
  features : ObjectFeatures
  deriving DecidableEq, Repr

/-- The public fetch request (`FetchSymCache`). -/
structure FetchSymCache where
  object_type : ObjectType
  identifier : ObjectId
  sources : List SourceConfig
  scope : Scope
  deriving DecidableEq, Repr

/-- The internal cacheable request (`FetchSymCacheInternal`): the fetch
request plus the resolved object metadata. The `objects_actor` and
`threadpool` handles of the Rust struct are effect handles; their
behaviour enters the embedding through `ComputeEnv` instead. -/
structure FetchSymCacheInternal where
  request : FetchSymCache
  object_meta : ObjectFileMeta
  deriving DecidableEq, Repr

/-- `CacheItemRequest::get_cache_key` for `FetchSymCacheInternal`:
delegates to the resolved object's own cache key. -/
def FetchSymCacheInternal.get_cache_key (self : FetchSymCacheInternal) : CacheKey :=
  self.object_meta.cache_key

/-- Equality of `Except` values is decidable when it is on both sides;
needed so outcomes of fallible steps can be compared by `decide`. -/
instance instDecEqExcept {ε α : Type} [DecidableEq ε] [DecidableEq α] :
    DecidableEq (Except ε α) := fun a b =>
  match a, b with
  | Except.ok x, Except.ok y =>
      if h : x = y then Decidable.isTrue (congrArg Except.ok h)
      else Decidable.isFalse (fun hc => h (Except.ok.inj hc))
  | Except.ok _, Except.error _ => Decidable.isFalse (fun hc => Except.noConfusion hc)
  | Except.error _, Except.ok _ => Decidable.isFalse (fun hc => Except.noConfusion hc)
  | Except.error x, Except.error y =>
      if h : x = y then Decidable.isTrue (congrArg Except.error h)
      else Decidable.isFalse (fun hc => h (Except.error.inj hc))

/-- Error kinds of the external `symbolic::symcache::SymCacheError`.
The embedded code matches only on `WriteFailed` versus everything else,
so one representative non-write kind suffices alongside it. -/
inductive SymCacheErrorKind where
  | writeFailed
  | badDebugFile
  deriving DecidableEq, Repr

/-- The structured object that `ObjectFile::parse` yields (`symbolic`
`Object`). Transcoding it (`SymCacheWriter::write_object`) is an opaque
deterministic function of the object, so its outcome — either the derived
bytes or a structural/write failure kind — is carried as a field. -/
structure SymbolicObject where
  transcode : Except SymCacheErrorKind Bytes
  deriving DecidableEq, Repr

/-- The fully fetched object (`Arc<ObjectFile>`): its own cache status,
its parse outcome (`Ok(Some _)`, `Ok(None)` or a parse error) and its
cache key. -/
structure ObjectFile where
  status : CacheStatus
  parse : Except String (Option SymbolicObject)
  cache_key : CacheKey
  deriving DecidableEq, Repr

/-- Outcomes of the filesystem operations `write_symcache` performs:
`File::create`, `BufWriter::into_inner` (flush) and `File::sync_all`.
Each flag says whether the corresponding call succeeds. -/
structure FsEnv where
  createOk : Bool
  flushOk : Bool
  syncOk : Bool
  deriving DecidableEq, Repr

/-- State of the file at the target path: its contents (none while the
file does not exist; the buffered bytes reach the contents at flush),
whether the buffer was flushed, and whether the file was synced to
stable storage. -/
structure DiskFile where
  contents : Option Bytes := none
  flushed : Bool := false
  synced : Bool := false
  deriving DecidableEq, Repr

/-- Effects observable after a compute attempt: whether `ObjectFile::parse`
was invoked, whether `SymCacheWriter::write_object` was invoked, and the
final state of the target file. -/
structure WriteEffects where
  parsedObject : Bool := false
  transcoded : Bool := false
  file : DiskFile := {}
  deriving DecidableEq, Repr

/-- Result of `write_symcache`: success, an error with the context message
the source attaches, or a panic (the `unwrap` on `Ok(None)`). -/
inductive WriteResult where
  | ok
  | error (msg : String)
  | panicked
  deriving DecidableEq, Repr

/-- `write_symcache(path, object)`, step for step from the source:
parse the object (`?` propagates a parse error, `unwrap` panics on
`Ok(None)`); create the file; run `SymCacheWriter::write_object`,
mapping the `WriteFailed` kind to the write-failure context and every
other kind to the parse-failure context; flush the buffered writer;
sync the file; return success. The sentry-scope configuration and the
debug log are effect-free and omitted. -/
def write_symcache (fs : FsEnv) (object : ObjectFile) : WriteResult × WriteEffects :=
  match object.parse with
  | Except.error _ => (WriteResult.error "Failed to parse object", { parsedObject := true })
  | Except.ok none => (WriteResult.panicked, { parsedObject := true })
  | Except.ok (some symbolic_object) =>
      if fs.createOk = false then
        (WriteResult.error "Failed to write symcache", { parsedObject := true })
      else
        match symbolic_object.transcode with
        | Except.error SymCacheErrorKind.writeFailed =>
            (WriteResult.error "Failed to write symcache",
             { parsedObject := true, transcoded := true, file := { contents := some [] } })
        | Except.error _ =>
            (WriteResult.error "Failed to parse object",
             { parsedObject := true, transcoded := true, file := { contents := some [] } })
        | Except.ok bytes =>
            if fs.flushOk = false then
              (WriteResult.error "Failed to write symcache",
               { parsedObject := true, transcoded := true, file := { contents := some [] } })
            else
              if fs.syncOk = false then
                (WriteResult.error "Failed to write symcache",
                 { parsedObject := true, transcoded := true,
                   file := { contents := some bytes, flushed := true } })
              else
                (WriteResult.ok,
                 { parsedObject := true, transcoded := true,
                   file := { contents := some bytes, flushed := true, synced := true } })

/-- Environment of one `compute` attempt: the outcome of
`objects_actor.fetch` (download of the full object), the filesystem
outcomes, whether the thread-pool handle was canceled, and the wall-clock
seconds the attempt took (raced against the timeout ceiling). -/
structure ComputeEnv where
  fetchResult : Except Unit ObjectFile
  fs : FsEnv
  canceled : Bool
  elapsedSecs : Nat
  deriving DecidableEq, Repr

/-- Infrastructure errors `compute` can yield, each corresponding to one
error context in the source: download failure, internal cancellation,
and the timeout of the `future_metrics!` race. -/
inductive ComputeError where
  | fetchFailed
  | canceled
  | timeout
  deriving DecidableEq, Repr

/-- Overall outcome of `compute`: a terminal `CacheStatus` together with
the effects of the attempt, an infrastructure error, or a panic escaping
`write_symcache`. -/
inductive ComputeOutcome where
  | ok (status : CacheStatus) (eff : WriteEffects)
  | error (e : ComputeError)
  | panicked
  deriving DecidableEq, Repr

/-- The timeout ceiling of `compute`, from
`Duration::from_secs(1200)` in the source. -/
def computeTimeoutSecs : Nat := 1200

/-- The `futures01::lazy` body inside `compute`: if the resolved object's
own status is not `Positive`, short-circuit with that status (no parsing,
no transcoding, file untouched); otherwise run `write_symcache`, mapping
any of its errors to `Malformed` and success to `Positive`. -/
def computeLazy (fs : FsEnv) (object : ObjectFile) : ComputeOutcome :=
  if object.status ≠ CacheStatus.Positive then
    ComputeOutcome.ok object.status {}
  else
    match write_symcache fs object with
    | (WriteResult.panicked, _) => ComputeOutcome.panicked
    | (WriteResult.error _, eff) => ComputeOutcome.ok CacheStatus.Malformed eff
    | (WriteResult.ok, eff) => ComputeOutcome.ok CacheStatus.Positive eff

/-- `CacheItemRequest::compute` for `FetchSymCacheInternal`. Modelled from
the spec where the source reaches outside the embedded file: the
`future_metrics!` wrapper races the whole future against the ceiling (an
attempt whose duration exceeds it yields the timeout error and nothing
else), and `spawn_handle` cancellation surfaces as the internal
cancellation error. Within the embedded file the order is the source's:
download the object, then run the lazy body on the thread pool. The
receiver `self` only feeds the metrics tag (`num_sources`), which is
effect-free. -/
def FetchSymCacheInternal.compute (_self : FetchSymCacheInternal)
    (env : ComputeEnv) : ComputeOutcome :=
  if computeTimeoutSecs < env.elapsedSecs then
    ComputeOutcome.error ComputeError.timeout
  else
    match env.fetchResult with
    | Except.error _ => ComputeOutcome.error ComputeError.fetchFailed
    | Except.ok object =>
        if env.canceled then ComputeOutcome.error ComputeError.canceled
        else computeLazy env.fs object

/-- `CacheItemRequest::should_load` for `FetchSymCacheInternal`:
`SymCache::parse(data).map(is_latest).unwrap_or(false)`. -/
def FetchSymCacheInternal.should_load (_self : FetchSymCacheInternal)
    (data : Bytes) : Bool :=
  match parseSymCache data with
  | Except.ok symcache => symcache.is_latest
  | Except.error _ => false

/-- `CacheItemRequest::load` for `FetchSymCacheInternal`: re-derive the
architecture from the bytes (`unwrap_or_default` yields `Arch::Unknown`
when the bytes do not parse) and assemble the `SymCacheFile` from the
request, the resolved object's features, and the given scope, status and
data. The `CachePath` argument is ignored, as in the source. -/
def FetchSymCacheInternal.load (self : FetchSymCacheInternal) (scope : Scope)
    (status : CacheStatus) (data : Bytes) (_path : CachePath) : SymCacheFile :=
  let arch :=
    match parseSymCache data with
    | Except.ok cache => cache.arch
    | Except.error _ => default
  { object_type := self.request.object_type
    identifier := self.request.identifier
    scope := scope
    data := data
    features := self.object_meta.features
    status := status
    arch := arch }

/-- Which path `SymCacheActor::fetch` takes after object resolution
succeeds: hand an internal request to the memoizing engine
(`Either::A(symcaches.compute_memoized(..))`), or synthesize the negative
item directly (`Either::B(Ok(..))`), bypassing engine and worker pool. -/
inductive FetchPath where
  | computeMemoized (internal : FetchSymCacheInternal)
  | direct (item : SymCacheFile)
  deriving DecidableEq, Repr

/-- `SymCacheActor::fetch`: resolve the object via `objects.find` (whose
outcome — failure, found metadata, or not found — is the explicit input
`findResult`); on failure propagate the download error; on found build the
internal request and hand it to the engine; on not found construct the
`Negative` item with empty payload, default features and `Arch::Unknown`
directly. -/
def SymCacheActor.fetch (request : FetchSymCache)
    (findResult : Except Unit (Option ObjectFileMeta)) :
    Except String FetchPath :=
  match findResult with
  | Except.error _ => Except.error "Failed to download object"
  | Except.ok (some object) =>
      Except.ok (FetchPath.computeMemoized
        { request := request, object_meta := object })
  | Except.ok none =>
      Except.ok (FetchPath.direct
        { object_type := request.object_type
          identifier := request.identifier
          scope := request.scope
          data := []
          features := {}
          status := CacheStatus.Negative
          arch := Arch.unknown })

/-- Modelled from the spec: the state of the memoizing engine (`Cacher`,
outside the embedded file). `inflight` holds the keys with an in-flight
computation (the in-memory single-flight map), `waiters` one entry per
caller currently attached to an in-flight computation, keyed by its cache
key, and `store` the persisted entries (key, status, bytes). -/
structure EngineState where
  inflight : List CacheKey
  waiters : List CacheKey
  store : List (CacheKey × CacheStatus × Bytes)
  deriving DecidableEq, Repr

/-- Modelled from the spec: what one arriving request observes at the
engine — a fresh persisted entry served without computing, attachment to
the in-flight computation, or the launch of the single computation. -/
inductive ArrivalAction where
  | loadFromStore (status : CacheStatus) (bytes : Bytes)
  | attach
  | startCompute
  deriving DecidableEq, Repr

/-- Modelled from the spec: the miss path of `Cacher::compute_memoized` —
if the key is already in flight, attach to the existing computation,
otherwise register the key and launch the computation. Either way the
caller becomes a waiter for the key. -/
def Cacher.arriveMiss (st : EngineState) (k : CacheKey) :
    ArrivalAction × EngineState :=
  if k ∈ st.inflight then
    (ArrivalAction.attach, { st with waiters := k :: st.waiters })
  else
    (ArrivalAction.startCompute,
     { st with inflight := k :: st.inflight, waiters := k :: st.waiters })

/-- Modelled from the spec: one request arriving at
`Cacher::compute_memoized` for key `k` under freshness predicate `sl`
(the request's `should_load`). Persistence-first lookup: existing bytes
accepted by `sl` are served directly with `compute` skipped; bytes
rejected by `sl` are treated as absent, falling through to the miss path. -/
def Cacher.arrive (sl : Bytes → Bool) (st : EngineState) (k : CacheKey) :
    ArrivalAction × EngineState :=
  match st.store.find? (fun e => e.1 == k) with
  | some e =>
      if sl e.2.2 then (ArrivalAction.loadFromStore e.2.1 e.2.2, st)
      else Cacher.arriveMiss st k
  | none => Cacher.arriveMiss st k

/-- Modelled from the spec: a batch of requests arriving at the engine
with no intervening completion (the concurrent-arrival window), processed
in arrival order; yields the action each request observed and the final
state. -/
def Cacher.arriveMany (sl : Bytes → Bool) (st : EngineState) :
    List CacheKey → List ArrivalAction × EngineState
  | [] => ([], st)
  | k :: ks =>
      let p := Cacher.arrive sl st k
      let q := Cacher.arriveMany sl p.2 ks
      (p.1 :: q.1, q.2)

/-- Modelled from the spec: settlement of the single computation for key
`k` with terminal status and bytes — the entry is persisted, the in-flight
entry removed, and the one shared result is published to every waiter
attached to `k` (the returned list has one element per such waiter). -/
def Cacher.complete (st : EngineState) (k : CacheKey) (status : CacheStatus)
    (bytes : Bytes) : EngineState × List (CacheStatus × Bytes) :=
  ({ inflight := st.inflight.erase k
     waiters := st.waiters.filter (fun w => ¬ w == k)
     store := (k, status, bytes) :: st.store },
   (st.waiters.filter (fun w => w == k)).map (fun _ => (status, bytes)))

/-- A sample fetch request, used to instantiate general theorems. -/
def sampleRequest : FetchSymCache :=
  { object_type := "macho", identifier := "X", sources := ["A", "B"], scope := "S" }

/-- A sample resolved-object metadata handle. -/
def sampleMeta : ObjectFileMeta := { cache_key := "K", features := {} }

/-- A sample internal request. -/
def sampleSelf : FetchSymCacheInternal :=
  { request := sampleRequest, object_meta := sampleMeta }

/-- A filesystem environment in which every operation succeeds. -/
def okFs : FsEnv := { createOk := true, flushOk := true, syncOk := true }

/-- A resolved object whose own cache status is `Negative`. -/
def negativeObject : ObjectFile :=
  { status := CacheStatus.Negative, parse := Except.ok none, cache_key := "K" }

/-- A compute environment that downloads `negativeObject` without incident. -/
def negEnv : ComputeEnv :=
  { fetchResult := Except.ok negativeObject, fs := okFs, canceled := false, elapsedSecs := 0 }

/-- A sample result handle with `Negative` status. -/
def negativeFile : SymCacheFile :=
  { object_type := "macho", identifier := "X", scope := "S", data := [],
    features := {}, status := CacheStatus.Negative, arch := Arch.unknown }

/-- C3: when object resolution succeeds with "not found", `fetch` returns
the direct path carrying an `Item` with `Negative` status and empty byte
payload — the memoizing engine and the worker offload are bypassed (the
outcome is `FetchPath.direct`, not `FetchPath.computeMemoized`) — and
`parse` on that `Item` yields `Ok(None)`. -/
theorem fetch_not_found_yields_negative (request : FetchSymCache) :
    ∃ item : SymCacheFile,
      SymCacheActor.fetch request (Except.ok none) =
        Except.ok (FetchPath.direct item) ∧
      item.status = CacheStatus.Negative ∧
      item.data = [] ∧
      item.parse = Except.ok none := by
  exact ⟨_, rfl, rfl, rfl, rfl⟩

/-- C3 witness: the general theorem evaluated at the sample request. -/
theorem fetch_not_found_yields_negative_witness :
    ∃ item : SymCacheFile,
      SymCacheActor.fetch sampleRequest (Except.ok none) =
        Except.ok (FetchPath.direct item) ∧
      item.status = CacheStatus.Negative ∧
      item.data = [] ∧
      item.parse = Except.ok none :=
  fetch_not_found_yields_negative sampleRequest

/-- C4: on a resolved object whose own status is not `Positive`, `compute`
(absent a timeout, download failure or cancellation) short-circuits and
returns that status unchanged, with empty effects: the object was never
parsed, transcoding was never attempted and the target file is untouched. -/
theorem compute_short_circuits_non_positive (self : FetchSymCacheInternal)
    (env : ComputeEnv) (object : ObjectFile)
    (hfetch : env.fetchResult = Except.ok object)
    (htime : env.elapsedSecs ≤ computeTimeoutSecs)
    (hcancel : env.canceled = false)
    (hstatus : object.status ≠ CacheStatus.Positive) :
    self.compute env = ComputeOutcome.ok object.status {} := by
  have ht : ¬ computeTimeoutSecs < env.elapsedSecs := Nat.not_lt.mpr htime
  simp only [FetchSymCacheInternal.compute, if_neg ht, hfetch, hcancel]
  simp [computeLazy, hstatus]

/-- C4 witness: the short-circuit evaluated on a concrete `Negative`
object in a benign environment. -/
theorem compute_short_circuits_non_positive_witness :
    sampleSelf.compute negEnv = ComputeOutcome.ok CacheStatus.Negative {} :=
  compute_short_circuits_non_positive sampleSelf negEnv negativeObject rfl
    (by decide) rfl (by decide)

/-- C6: the result of the `parse` accessor of a constructed `Item` is
fully determined by its cache status — `Negative` yields `Ok(None)`,
`Malformed` yields an error, and `Positive` yields the symcache parsed
from the stored bytes, or an error when those bytes do not parse. -/
theorem parse_determined_by_status (f : SymCacheFile) :
    (f.status = CacheStatus.Negative → f.parse = Except.ok none) ∧
    (f.status = CacheStatus.Malformed →
      f.parse = Except.error "Failed to parse object") ∧
    (f.status = CacheStatus.Positive →
      ∀ c, parseSymCache f.data = Except.ok c → f.parse = Except.ok (some c)) ∧
    (f.status = CacheStatus.Positive →
      ∀ msg, parseSymCache f.data = Except.error msg →
        f.parse = Except.error "Failed to parse symcache") := by
  refine ⟨?_, ?_, ?_, ?_⟩
  · intro h; simp [SymCacheFile.parse, h]
  · intro h; simp [SymCacheFile.parse, h]
  · intro h c hc; simp [SymCacheFile.parse, h, hc]
  · intro h msg hmsg; simp [SymCacheFile.parse, h, hmsg]

/-- C6 witness: the `Negative` branch evaluated on a concrete item. -/
theorem parse_determined_by_status_witness :
    negativeFile.parse = Except.ok none :=
  (parse_determined_by_status negativeFile).1 (by decide)

/-- C10: `load` is total — for every scope, status and byte payload it
constructs a `SymCacheFile` whose fields come from the request, the
resolved object and the given arguments — and when the bytes do not parse
as a symcache the architecture defaults to `Arch::Unknown` instead of an
error being raised (when they do parse, it is the parsed architecture). -/
theorem load_total_arch_defaults_unknown (self : FetchSymCacheInternal)
    (scope : Scope) (status : CacheStatus) (data : Bytes) (path : CachePath) :
    (self.load scope status data path).status = status ∧
    (self.load scope status data path).data = data ∧
    (self.load scope status data path).scope = scope ∧
    (self.load scope status data path).features = self.object_meta.features ∧
    (self.load scope status data path).object_type = self.request.object_type ∧
    (self.load scope status data path).identifier = self.request.identifier ∧
    (∀ msg, parseSymCache data = Except.error msg →
      (self.load scope status data path).arch = Arch.unknown) ∧
    (∀ c, parseSymCache data = Except.ok c →
      (self.load scope status data path).arch = c.arch) := by
  refine ⟨rfl, rfl, rfl, rfl, rfl, rfl, ?_, ?_⟩
  · intro msg hmsg; simp [FetchSymCacheInternal.load, hmsg, default]
  · intro c hc; simp [FetchSymCacheInternal.load, hc]

/-- C10 witness: loading the empty (unparseable) payload yields the
`Unknown` architecture. -/
theorem load_total_arch_defaults_unknown_witness :
    (sampleSelf.load "S" CacheStatus.Negative [] "p").arch = Arch.unknown :=
  (load_total_arch_defaults_unknown sampleSelf "S" CacheStatus.Negative []
    "p").2.2.2.2.2.2.1 "header too small" (by decide)

/-- Persisted bytes of a stale format revision (version 3, not the
latest). -/
def staleBytes : Bytes := [77, 3, 1]

/-- Persisted bytes of the latest format revision. -/
def freshBytes : Bytes := [77, 4, 1]

/-- An engine state holding one persisted stale entry under key `"K"`. -/
def staleStoreSt : EngineState :=
  { inflight := [], waiters := [],
    store := [("K", CacheStatus.Positive, staleBytes)] }

/-- C5: `should_load` accepts a byte payload exactly when it parses as a
symcache of the latest supported format revision; at the engine, a
persisted entry whose bytes `should_load` accepts is served with `compute`
skipped (the state, and with it the in-flight map, is untouched), while
rejected bytes are treated as a miss, so the arrival attaches to or
launches a computation. -/
theorem should_load_latest_revision (self : FetchSymCacheInternal)
    (data : Bytes) (st : EngineState) (k : CacheKey) (s : CacheStatus)
    (b : Bytes)
    (hstore : st.store.find? (fun e => e.1 == k) = some (k, s, b)) :
    (self.should_load data = true ↔
      ∃ c, parseSymCache data = Except.ok c ∧
        c.version = symcacheLatestVersion) ∧
    (self.should_load b = true →
      Cacher.arrive (self.should_load) st k =
        (ArrivalAction.loadFromStore s b, st)) ∧
    (self.should_load b = false →
      (Cacher.arrive (self.should_load) st k).1 = ArrivalAction.attach ∨
      (Cacher.arrive (self.should_load) st k).1 = ArrivalAction.startCompute) := by
  refine ⟨?_, ?_, ?_⟩
  · unfold FetchSymCacheInternal.should_load
    cases hp : parseSymCache data with
    | ok c => simp [SymCacheView.is_latest]
    | error msg => simp
  · intro h
    unfold Cacher.arrive
    rw [hstore]
    simp [h]
  · intro h
    unfold Cacher.arrive
    rw [hstore]
    simp only [h, if_false, Bool.false_eq_true]
    unfold Cacher.arriveMiss
    by_cases hk : k ∈ st.inflight
    · left; simp [hk]
    · right; simp [hk]

/-- C5 witness: the stale persisted entry is rejected and the arrival
falls through to the miss path of the engine. -/
theorem should_load_latest_revision_witness :
    (sampleSelf.should_load freshBytes = true ↔
      ∃ c, parseSymCache freshBytes = Except.ok c ∧
        c.version = symcacheLatestVersion) ∧
    ((Cacher.arrive (sampleSelf.should_load) staleStoreSt "K").1 =
        ArrivalAction.attach ∨
      (Cacher.arrive (sampleSelf.should_load) staleStoreSt "K").1 =
        ArrivalAction.startCompute) :=
  ⟨(should_load_latest_revision sampleSelf freshBytes staleStoreSt "K"
      CacheStatus.Positive staleBytes (by decide)).1,
   (should_load_latest_revision sampleSelf freshBytes staleStoreSt "K"
      CacheStatus.Positive staleBytes (by decide)).2.2 (by decide)⟩

/-- A resolved object that downloads, parses and transcodes cleanly. -/
def goodObject : ObjectFile :=
  { status := CacheStatus.Positive,
    parse := Except.ok (some { transcode := Except.ok freshBytes }),
    cache_key := "K" }

/-- A benign compute environment carrying `goodObject`. -/
def goodEnv : ComputeEnv :=
  { fetchResult := Except.ok goodObject, fs := okFs, canceled := false,
    elapsedSecs := 10 }

/-- A compute environment whose attempt overruns the ceiling by a second. -/
def timeoutEnv : ComputeEnv :=
  { fetchResult := Except.ok goodObject, fs := okFs, canceled := false,
    elapsedSecs := 1201 }

/-- C7: the compute attempt is raced against a ceiling of exactly 1200
seconds (20 minutes); an attempt exceeding the ceiling yields the timeout
error — an infrastructure error, not a `CacheStatus` — so no terminal
status (and hence no persisted entry) can come out of that attempt. -/
theorem compute_timeout_ceiling (self : FetchSymCacheInternal)
    (env : ComputeEnv) (h : computeTimeoutSecs < env.elapsedSecs) :
    self.compute env = ComputeOutcome.error ComputeError.timeout ∧
    computeTimeoutSecs = 1200 ∧
    computeTimeoutSecs = 20 * 60 ∧
    ∀ (status : CacheStatus) (eff : WriteEffects),
      self.compute env ≠ ComputeOutcome.ok status eff := by
  have hc : self.compute env = ComputeOutcome.error ComputeError.timeout := by
    simp [FetchSymCacheInternal.compute, h]
  refine ⟨hc, rfl, rfl, ?_⟩
  intro status eff hcon
  rw [hc] at hcon
  exact ComputeOutcome.noConfusion hcon

/-- C7 witness: an attempt taking 1201 seconds times out. -/
theorem compute_timeout_ceiling_witness :
    sampleSelf.compute timeoutEnv = ComputeOutcome.error ComputeError.timeout :=
  (compute_timeout_ceiling sampleSelf timeoutEnv (by decide)).1

/-- Helper: a successful `write_symcache` run ends with the buffered
writer flushed and the file synced, and with the transcoded bytes as the
file contents. -/
theorem write_symcache_ok_durable (fs : FsEnv) (object : ObjectFile)
    (eff : WriteEffects)
    (h : write_symcache fs object = (WriteResult.ok, eff)) :
    eff.file.flushed = true ∧ eff.file.synced = true ∧
    ∃ bytes, eff.file.contents = some bytes := by
  unfold write_symcache at h
  split at h
  · exact absurd (congrArg Prod.fst h) (by simp)
  · exact absurd (congrArg Prod.fst h) (by simp)
  · split at h
    · exact absurd (congrArg Prod.fst h) (by simp)
    · split at h
      · exact absurd (congrArg Prod.fst h) (by simp)
      · exact absurd (congrArg Prod.fst h) (by simp)
      · split at h
        · exact absurd (congrArg Prod.fst h) (by simp)
        · split at h
          · exact absurd (congrArg Prod.fst h) (by simp)
          · have he := congrArg Prod.snd h
            simp only at he
            rw [← he]
            exact ⟨rfl, rfl, _, rfl⟩

/-- Helper: an object that parses to a present structured object can
never make `write_symcache` hit the `unwrap` panic. -/
theorem write_symcache_no_panic_of_some (fs : FsEnv) (object : ObjectFile)
    (so : SymbolicObject) (h : object.parse = Except.ok (some so)) :
    (write_symcache fs object).1 ≠ WriteResult.panicked := by
  unfold write_symcache
  split
  · simp_all
  · simp_all
  · split
    · simp
    · split
      · simp
      · simp
      · split
        · simp
        · split
          · simp
          · simp

/-- C8: whenever `compute` returns the terminal status `Positive`, the
written symcache file was already durably committed — the buffered writer
was flushed and the file synced to stable storage, with the transcoded
bytes as its contents — before `Positive` was produced; `compute` never
returns `Positive` without a successful durable flush. -/
theorem compute_positive_implies_durable (self : FetchSymCacheInternal)
    (env : ComputeEnv) (eff : WriteEffects)
    (h : self.compute env = ComputeOutcome.ok CacheStatus.Positive eff) :
    eff.file.flushed = true ∧ eff.file.synced = true ∧
    ∃ bytes, eff.file.contents = some bytes := by
  unfold FetchSymCacheInternal.compute at h
  split at h
  · exact ComputeOutcome.noConfusion h
  · split at h
    · exact ComputeOutcome.noConfusion h
    · rename_i object hobj
      split at h
      · exact ComputeOutcome.noConfusion h
      · unfold computeLazy at h
        split at h
        · rename_i hne
          injection h with h1 h2
          exact absurd h1 hne
        · split at h
          · exact ComputeOutcome.noConfusion h
          · injection h with h1 h2
            exact CacheStatus.noConfusion h1
          · rename_i heq
            injection h with h1 h2
            rw [h2] at heq
            exact write_symcache_ok_durable env.fs object eff heq

/-- C8 witness: a clean end-to-end run returns `Positive` with the
transcoded bytes flushed and synced. -/
theorem compute_positive_implies_durable_witness :
    ({ parsedObject := true, transcoded := true,
       file := { contents := some freshBytes, flushed := true,
                 synced := true } } : WriteEffects).file.flushed = true ∧
    ({ parsedObject := true, transcoded := true,
       file := { contents := some freshBytes, flushed := true,
                 synced := true } } : WriteEffects).file.synced = true ∧
    ∃ bytes,
      ({ parsedObject := true, transcoded := true,
         file := { contents := some freshBytes, flushed := true,
                   synced := true } } : WriteEffects).file.contents =
        some bytes :=
  compute_positive_implies_durable sampleSelf goodEnv _ (by decide)

/-- A resolved object whose parse succeeds but yields no object. -/
def noneObject : ObjectFile :=
  { status := CacheStatus.Positive, parse := Except.ok none, cache_key := "K" }

/-- C9: `write_symcache` panics on its `unwrap` when `object.parse()`
succeeds with no structured object, rather than returning an error or a
`Malformed` classification; and under the precondition that every object
with `Positive` status parses to a present object — the condition under
which `compute` reaches `write_symcache` — `compute` never panics. -/
theorem write_symcache_unwrap_panics (self : FetchSymCacheInternal)
    (fs : FsEnv) (object : ObjectFile) (env : ComputeEnv)
    (hparse : object.parse = Except.ok none)
    (hpre : ∀ obj : ObjectFile, env.fetchResult = Except.ok obj →
      obj.status = CacheStatus.Positive →
      ∃ so, obj.parse = Except.ok (some so)) :
    (write_symcache fs object).1 = WriteResult.panicked ∧
    self.compute env ≠ ComputeOutcome.panicked := by
  constructor
  · simp [write_symcache, hparse]
  · intro hcon
    unfold FetchSymCacheInternal.compute at hcon
    split at hcon
    · exact ComputeOutcome.noConfusion hcon
    · split at hcon
      · exact ComputeOutcome.noConfusion hcon
      · rename_i obj hobj
        split at hcon
        · exact ComputeOutcome.noConfusion hcon
        · unfold computeLazy at hcon
          split at hcon
          · exact ComputeOutcome.noConfusion hcon
          · rename_i hnn
            have hpos : obj.status = CacheStatus.Positive := not_not.mp hnn
            obtain ⟨so, hso⟩ := hpre obj hobj hpos
            split at hcon
            · rename_i heq
              have := write_symcache_no_panic_of_some env.fs obj so hso
              rw [heq] at this
              exact this rfl
            · exact ComputeOutcome.noConfusion hcon
            · exact ComputeOutcome.noConfusion hcon

/-- C9 witness: the panic on a concrete `Ok(None)` object, and the
absence of panics in a benign environment whose object parses. -/
theorem write_symcache_unwrap_panics_witness :
    (write_symcache okFs noneObject).1 = WriteResult.panicked :=
  (write_symcache_unwrap_panics sampleSelf okFs noneObject goodEnv rfl
    (fun obj hob _ => by
      have hg : goodObject = obj := Except.ok.inj hob
      exact ⟨{ transcode := Except.ok freshBytes }, by rw [← hg]; rfl⟩)).1

/-- A resolved object whose transcoding fails with the `WriteFailed`
(infrastructure) error kind. -/
def writeFailObject : ObjectFile :=
  { status := CacheStatus.Positive,
    parse := Except.ok
      (some { transcode := Except.error SymCacheErrorKind.writeFailed }),
    cache_key := "K" }

/-- A benign compute environment carrying `writeFailObject`. -/
def writeFailEnv : ComputeEnv :=
  { fetchResult := Except.ok writeFailObject, fs := okFs, canceled := false,
    elapsedSecs := 0 }

/-- C2 counterexample: a transcoding failure of kind `WriteFailed` in an
otherwise benign environment does not propagate to the caller as a hard
error — `compute` returns the terminal, cacheable status `Malformed`. -/
theorem write_failure_not_propagated_cex :
    sampleSelf.compute writeFailEnv =
      ComputeOutcome.ok CacheStatus.Malformed
        { parsedObject := true, transcoded := true,
          file := { contents := some [] } } := by decide

/-- C2 (amended): `write_symcache` classifies a transcoding failure by
kind only in the error message it attaches (`WriteFailed` gets the
write-failure context, every other kind the parse-failure context), but
`compute` maps every `write_symcache` failure — write failure and
structural input failure alike — to the terminal status `Malformed`,
which is cached; no transcoding failure reaches the caller as a hard
error. -/
theorem transcode_failure_always_malformed (self : FetchSymCacheInternal)
    (env : ComputeEnv) (object : ObjectFile) (so : SymbolicObject)
    (k : SymCacheErrorKind)
    (hfetch : env.fetchResult = Except.ok object)
    (htime : env.elapsedSecs ≤ computeTimeoutSecs)
    (hcancel : env.canceled = false)
    (hstatus : object.status = CacheStatus.Positive)
    (hparse : object.parse = Except.ok (some so))
    (hcreate : env.fs.createOk = true)
    (htrans : so.transcode = Except.error k) :
    (write_symcache env.fs object).1 =
      WriteResult.error
        (if k = SymCacheErrorKind.writeFailed then "Failed to write symcache"
         else "Failed to parse object") ∧
    self.compute env =
      ComputeOutcome.ok CacheStatus.Malformed
        { parsedObject := true, transcoded := true,
          file := { contents := some [] } } := by
  have ht : ¬ computeTimeoutSecs < env.elapsedSecs := Nat.not_lt.mpr htime
  cases k with
  | writeFailed =>
      constructor
      · simp [write_symcache, hparse, hcreate, htrans]
      · simp [FetchSymCacheInternal.compute, if_neg ht, hfetch, hcancel,
          computeLazy, hstatus, write_symcache, hparse, hcreate, htrans]
  | badDebugFile =>
      constructor
      · simp [write_symcache, hparse, hcreate, htrans]
      · simp [FetchSymCacheInternal.compute, if_neg ht, hfetch, hcancel,
          computeLazy, hstatus, write_symcache, hparse, hcreate, htrans]

/-- C2 witness: the amended classification evaluated on the concrete
`WriteFailed` transcoding failure. -/
theorem transcode_failure_always_malformed_witness :
    (write_symcache okFs writeFailObject).1 =
      WriteResult.error "Failed to write symcache" ∧
    sampleSelf.compute writeFailEnv =
      ComputeOutcome.ok CacheStatus.Malformed
        { parsedObject := true, transcoded := true,
          file := { contents := some [] } } :=
  transcode_failure_always_malformed sampleSelf writeFailEnv writeFailObject
    { transcode := Except.error SymCacheErrorKind.writeFailed }
    SymCacheErrorKind.writeFailed rfl (by decide) rfl rfl rfl rfl rfl

/-- Helper: a run of copies of an element absorbs a following equal
element into a longer run. -/
theorem replicate_append_cons {α : Type} (n : Nat) (a : α) (w : List α) :
    List.replicate n a ++ a :: w = List.replicate (n + 1) a ++ w := by
  rw [List.replicate_succ', List.append_assoc]
  rfl

/-- Helper: filtering a run of one key by equality with that key keeps
the whole run. -/
theorem filter_beq_replicate (n : Nat) (a : CacheKey) :
    (List.replicate n a).filter (fun w => w == a) = List.replicate n a := by
  induction n with
  | zero => rfl
  | succ m ih => simp [List.replicate_succ, List.filter_cons, ih]

/-- Helper: once key `k` is in flight (and has no fresh persisted entry),
every further arrival for `k` attaches to the in-flight computation —
none launches a new one — and each adds one waiter for `k`. -/
theorem arriveMany_attach_of_inflight (sl : Bytes → Bool) (k : CacheKey) :
    ∀ (n : Nat) (st : EngineState),
      st.store.find? (fun e => e.1 == k) = none → k ∈ st.inflight →
      Cacher.arriveMany sl st (List.replicate n k) =
        (List.replicate n ArrivalAction.attach,
         { st with waiters := List.replicate n k ++ st.waiters }) := by
  intro n
  induction n with
  | zero => intro st _ _; rfl
  | succ m ih =>
      intro st hs hi
      have harr : Cacher.arrive sl st k =
          (ArrivalAction.attach, { st with waiters := k :: st.waiters }) := by
        unfold Cacher.arrive
        rw [hs]
        unfold Cacher.arriveMiss
        rw [if_pos hi]
      have hrest := ih { st with waiters := k :: st.waiters } hs hi
      simp only [List.replicate_succ, Cacher.arriveMany, harr, hrest]
      refine Prod.ext rfl ?_
      simp only
      rw [replicate_append_cons]
      rfl

/-- C1: for a cache key `K` with no fresh persisted entry, no in-flight
computation and no attached waiter, when `N > 0` concurrent requests all
resolve to `K`, the engine launches `compute` exactly once — the first
arrival starts it and every other arrival attaches to the in-flight
computation — and on settlement all `N` callers receive the one shared
result, with identical status and bytes. -/
theorem single_flight_per_key (sl : Bytes → Bool) (st : EngineState)
    (k : CacheKey) (n : Nat) (status : CacheStatus) (bytes : Bytes)
    (hstore : st.store.find? (fun e => e.1 == k) = none)
    (hin : k ∉ st.inflight)
    (hw : ∀ w ∈ st.waiters, w ≠ k)
    (hn : 0 < n) :
    (Cacher.arriveMany sl st (List.replicate n k)).1 =
      ArrivalAction.startCompute ::
        List.replicate (n - 1) ArrivalAction.attach ∧
    (Cacher.complete (Cacher.arriveMany sl st (List.replicate n k)).2 k
        status bytes).2 = List.replicate n (status, bytes) := by
  obtain ⟨m, rfl⟩ : ∃ m, n = m + 1 :=
    ⟨n - 1, (Nat.succ_pred_eq_of_pos hn).symm⟩
  have harr : Cacher.arrive sl st k =
      (ArrivalAction.startCompute,
       { st with inflight := k :: st.inflight, waiters := k :: st.waiters }) := by
    unfold Cacher.arrive
    rw [hstore]
    unfold Cacher.arriveMiss
    rw [if_neg hin]
  have hmany := arriveMany_attach_of_inflight sl k m
      { st with inflight := k :: st.inflight, waiters := k :: st.waiters }
      hstore (List.mem_cons_self k st.inflight)
  have hfilter : st.waiters.filter (fun w => w == k) = [] := by
    rw [List.filter_eq_nil_iff]
    intro w hwts
    simp [hw w hwts]
  constructor
  · simp only [List.replicate_succ, Cacher.arriveMany, harr, hmany]
    rfl
  · simp only [List.replicate_succ, Cacher.arriveMany, harr, hmany]
    unfold Cacher.complete
    simp only
    rw [replicate_append_cons, List.filter_append, filter_beq_replicate,
      hfilter, List.append_nil, List.map_replicate]
    rfl

/-- An engine state with nothing in flight, no waiters and an empty
store. -/
def emptyEngineSt : EngineState := { inflight := [], waiters := [], store := [] }

/-- C1 witness: three concurrent arrivals for `"K"` on the empty engine —
one `compute` launch, two attachments, and three identical delivered
results. -/
theorem single_flight_per_key_witness :
    (Cacher.arriveMany (sampleSelf.should_load) emptyEngineSt
        (List.replicate 3 "K")).1 =
      ArrivalAction.startCompute :: List.replicate 2 ArrivalAction.attach ∧
    (Cacher.complete (Cacher.arriveMany (sampleSelf.should_load) emptyEngineSt
        (List.replicate 3 "K")).2 "K" CacheStatus.Positive freshBytes).2 =
      List.replicate 3 (CacheStatus.Positive, freshBytes) :=
  single_flight_per_key (sampleSelf.should_load) emptyEngineSt "K" 3
    CacheStatus.Positive freshBytes rfl (by simp [emptyEngineSt])
    (by simp [emptyEngineSt]) (by decide)
